import Mathlib

/-!
Verification development for the FinanceAdvisorSystem pipeline of src/App.py.

The data flowing through the pipeline (Python dicts, lists, numbers and
strings) is embedded as the JSON-like type JVal, with rational numbers in
place of Python floats.  External collaborators (the json.loads decoder,
the pandas date normaliser, the google.adk session service and sequential
agent) are passed in as explicit parameters or modelled from the spec where
noted.  All definitions are executable.
-/

set_option maxHeartbeats 1000000

/-- JSON-like values: the shape of the Python data flowing through the
FinanceAdvisorSystem session state and results. -/
inductive JVal where
  | null : JVal
  | bool (b : Bool) : JVal
  | num (q : ℚ) : JVal
  | str (s : String) : JVal
  | arr (elems : List JVal) : JVal
  | obj (fields : List (String × JVal)) : JVal

/-- Python truthiness of an embedded value. -/
def truthy : JVal → Bool
  | JVal.null => false
  | JVal.bool b => b
  | JVal.num q => decide (q ≠ 0)
  | JVal.str s => !s.isEmpty
  | JVal.arr elems => !elems.isEmpty
  | JVal.obj fields => !fields.isEmpty

/-- Python truthiness of a dict .get result (None when the key is absent). -/
def truthyOpt : Option JVal → Bool
  | some v => truthy v
  | none => false

/-- Embedding of parse_json_safely (src/App.py 206-211).  The external
json.loads decoder is the loads parameter; a none result stands for a
JSONDecodeError, which the source catches and turns into default_value.
Every branch returns a value: the Python function never raises. -/
def parse_json_safely (loads : String → Option JVal) (data : JVal)
    (default_value : JVal) : JVal :=
  match data with
  | JVal.str s =>
    match loads s with
    | some v => v
    | none => default_value
  | _ => data

/-- One transaction record, a dict that may miss keys, as read by
_create_default_results and _preprocess_transactions via dict.get. -/
structure Transaction where
  date : Option String
  category : Option String
  amount : Option ℚ
deriving DecidableEq

/-- One debt record; only the amount key is read by the fallback formulas
(via debt.get with default 0), the record is otherwise passed through. -/
structure DebtEntry where
  name : Option String
  amount : Option ℚ
  interest_rate : Option ℚ
  min_payment : Option ℚ
deriving DecidableEq

/-- The financial_data dict accepted by analyze_finances: each field is
none when the corresponding key is absent. -/
structure FinancialData where
  monthly_income : Option ℚ
  dependants : Option ℚ
  transactions : Option (List Transaction)
  manual_expenses : Option (List (String × ℚ))
  debts : Option (List DebtEntry)

/-- A dict field that is present only when the option is some. -/
def optJField (key : String) : Option JVal → List (String × JVal)
  | some v => [(key, v)]
  | none => []

/-- A transaction record as the JSON-like dict stored in session state. -/
def Transaction.toJVal (t : Transaction) : JVal :=
  JVal.obj (optJField "Date" (t.date.map JVal.str)
    ++ optJField "Category" (t.category.map JVal.str)
    ++ optJField "Amount" (t.amount.map JVal.num))

/-- A debt record as the JSON-like dict stored in session state. -/
def DebtEntry.toJVal (d : DebtEntry) : JVal :=
  JVal.obj (optJField "name" (d.name.map JVal.str)
    ++ optJField "amount" (d.amount.map JVal.num)
    ++ optJField "interest_rate" (d.interest_rate.map JVal.num)
    ++ optJField "min_payment" (d.min_payment.map JVal.num))

/-- Session state: the mutable string-keyed dict owned by one session. -/
abbrev SessionState := List (String × JVal)

/-- The initial_state dict seeded by analyze_finances (src/App.py 323-329),
with the same dict.get defaults as the source. -/
def initialState (fd : FinancialData) : SessionState :=
  [("monthly_income", JVal.num (fd.monthly_income.getD 0)),
   ("dependants", JVal.num (fd.dependants.getD 0)),
   ("transactions", JVal.arr ((fd.transactions.getD []).map Transaction.toJVal)),
   ("manual_expenses",
     JVal.obj ((fd.manual_expenses.getD []).map (fun p => (p.1, JVal.num p.2)))),
   ("debts", JVal.arr ((fd.debts.getD []).map DebtEntry.toJVal))]

/-- One step of Python dict aggregation
expenses[category] = expenses.get(category, 0) + amount:
the first matching key is updated in place, a new key is appended. -/
def addToCategory : List (String × ℚ) → String → ℚ → List (String × ℚ)
  | [], cat, amt => [(cat, amt)]
  | (c, a) :: rest, cat, amt =>
    if c = cat then (c, a + amt) :: rest else (c, a) :: addToCategory rest cat amt

/-- Per-category aggregation of transactions inside _create_default_results
(src/App.py 411-416), with the dict.get defaults of the source. -/
def aggregateTxExpenses (txs : List Transaction) : List (String × ℚ) :=
  txs.foldl
    (fun acc t => addToCategory acc (t.category.getD "Uncategorized") (t.amount.getD 0)) []

/-- Expense-source resolution of _create_default_results (src/App.py 408-416):
manual_expenses when truthy, else aggregated transactions when truthy,
else the empty dict. -/
def resolvedExpenses (fd : FinancialData) : List (String × ℚ) :=
  let expenses := fd.manual_expenses.getD []
  if expenses.isEmpty && !(fd.transactions.getD []).isEmpty then
    aggregateTxExpenses (fd.transactions.getD [])
  else expenses

/-- One spending-category entry of the fallback budget analysis. -/
structure SpendingCategoryV where
  category : String
  amount : ℚ
  percentage : ℚ
deriving DecidableEq

/-- One spending recommendation of the fallback budget analysis. -/
structure SpendingRecommendationV where
  category : String
  recommendation : String
  potential_savings : ℚ
deriving DecidableEq

/-- The fallback budget_analysis value. -/
structure BudgetAnalysisV where
  total_expenses : ℚ
  monthly_income : ℚ
  spending_categories : List SpendingCategoryV
  recommendations : List SpendingRecommendationV
deriving DecidableEq

/-- The fallback emergency_fund value. -/
structure EmergencyFundV where
  recommended_amount : ℚ
  current_amount : ℚ
  current_status : String
deriving DecidableEq

/-- One savings recommendation of the fallback savings strategy. -/
structure SavingsRecommendationV where
  category : String
  amount : ℚ
  rationale : String
deriving DecidableEq

/-- One automation technique of the fallback savings strategy. -/
structure AutomationTechniqueV where
  name : String
  description : String
deriving DecidableEq

/-- The fallback savings_strategy value. -/
structure SavingsStrategyV where
  emergency_fund : EmergencyFundV
  recommendations : List SavingsRecommendationV
  automation_techniques : List AutomationTechniqueV
deriving DecidableEq

/-- One payoff plan of the fallback debt reduction. -/
structure PayoffPlanV where
  total_interest : ℚ
  months_to_payoff : ℕ
  monthly_payment : ℚ
deriving DecidableEq

/-- The avalanche and snowball payoff plans. -/
structure PayoffPlansV where
  avalanche : PayoffPlanV
  snowball : PayoffPlanV
deriving DecidableEq

/-- One debt-reduction recommendation. -/
structure DebtRecommendationV where
  title : String
  description : String
  impact : String
deriving DecidableEq

/-- The fallback debt_reduction value. -/
structure DebtReductionV where
  total_debt : ℚ
  debts : List DebtEntry
  payoff_plans : PayoffPlansV
  recommendations : List DebtRecommendationV
deriving DecidableEq

/-- The three fallback artifacts returned by _create_default_results. -/
structure DefaultResults where
  budget_analysis : BudgetAnalysisV
  savings_strategy : SavingsStrategyV
  debt_reduction : DebtReductionV
deriving DecidableEq

/-- Embedding of FinanceAdvisorSystem._create_default_results
(src/App.py 407-465): the deterministic fallback synthesizer. -/
def createDefaultResults (fd : FinancialData) : DefaultResults :=
  let monthly_income := fd.monthly_income.getD 0
  let expenses := resolvedExpenses fd
  let total_expenses := (expenses.map Prod.snd).sum
  let debtsL := fd.debts.getD []
  let total_debt := (debtsL.map (fun d => d.amount.getD 0)).sum
  ⟨⟨total_expenses, monthly_income,
     expenses.map (fun p =>
       ⟨p.1, p.2, if total_expenses > 0 then p.2 / total_expenses * 100 else 0⟩),
     [⟨"General", "Consider reviewing your expenses carefully", total_expenses * 0.1⟩]⟩,
   ⟨⟨total_expenses * 6, 0, "Not started"⟩,
     [⟨"Emergency Fund", total_expenses * 0.1, "Build emergency fund first"⟩,
      ⟨"Retirement", monthly_income * 0.15, "Long-term savings"⟩],
     [⟨"Automatic Transfer", "Set up automatic transfers on payday"⟩]⟩,
   ⟨total_debt, debtsL,
     ⟨⟨total_debt * 0.2, 24, total_debt / 24⟩,
      ⟨total_debt * 0.25, 24, total_debt / 24⟩⟩,
     [⟨"Increase Payments", "Increase your monthly payments",
       "Reduces total interest paid"⟩]⟩⟩

/-- The fallback spending categories as a JSON-like value. -/
def SpendingCategoryV.toJVal (x : SpendingCategoryV) : JVal :=
  JVal.obj [("category", JVal.str x.category), ("amount", JVal.num x.amount),
            ("percentage", JVal.num x.percentage)]

/-- The fallback spending recommendation as a JSON-like value. -/
def SpendingRecommendationV.toJVal (x : SpendingRecommendationV) : JVal :=
  JVal.obj [("category", JVal.str x.category),
            ("recommendation", JVal.str x.recommendation),
            ("potential_savings", JVal.num x.potential_savings)]

/-- The fallback budget analysis as a JSON-like value. -/
def BudgetAnalysisV.toJVal (b : BudgetAnalysisV) : JVal :=
  JVal.obj [("total_expenses", JVal.num b.total_expenses),
            ("monthly_income", JVal.num b.monthly_income),
            ("spending_categories", JVal.arr (b.spending_categories.map SpendingCategoryV.toJVal)),
            ("recommendations", JVal.arr (b.recommendations.map SpendingRecommendationV.toJVal))]

/-- The fallback emergency fund as a JSON-like value. -/
def EmergencyFundV.toJVal (e : EmergencyFundV) : JVal :=
  JVal.obj [("recommended_amount", JVal.num e.recommended_amount),
            ("current_amount", JVal.num e.current_amount),
            ("current_status", JVal.str e.current_status)]

/-- The fallback savings recommendation as a JSON-like value. -/
def SavingsRecommendationV.toJVal (x : SavingsRecommendationV) : JVal :=
  JVal.obj [("category", JVal.str x.category), ("amount", JVal.num x.amount),
            ("rationale", JVal.str x.rationale)]

/-- The fallback automation technique as a JSON-like value. -/
def AutomationTechniqueV.toJVal (x : AutomationTechniqueV) : JVal :=
  JVal.obj [("name", JVal.str x.name), ("description", JVal.str x.description)]

/-- The fallback savings strategy as a JSON-like value. -/
def SavingsStrategyV.toJVal (s : SavingsStrategyV) : JVal :=
  JVal.obj [("emergency_fund", s.emergency_fund.toJVal),
            ("recommendations", JVal.arr (s.recommendations.map SavingsRecommendationV.toJVal)),
            ("automation_techniques", JVal.arr (s.automation_techniques.map AutomationTechniqueV.toJVal))]

/-- A payoff plan as a JSON-like value. -/
def PayoffPlanV.toJVal (p : PayoffPlanV) : JVal :=
  JVal.obj [("total_interest", JVal.num p.total_interest),
            ("months_to_payoff", JVal.num (p.months_to_payoff : ℚ)),
            ("monthly_payment", JVal.num p.monthly_payment)]

/-- A debt-reduction recommendation as a JSON-like value. -/
def DebtRecommendationV.toJVal (x : DebtRecommendationV) : JVal :=
  JVal.obj [("title", JVal.str x.title), ("description", JVal.str x.description),
            ("impact", JVal.str x.impact)]

/-- The fallback debt reduction as a JSON-like value. -/
def DebtReductionV.toJVal (d : DebtReductionV) : JVal :=
  JVal.obj [("total_debt", JVal.num d.total_debt),
            ("debts", JVal.arr (d.debts.map DebtEntry.toJVal)),
            ("payoff_plans", JVal.obj
              [("avalanche", d.payoff_plans.avalanche.toJVal),
               ("snowball", d.payoff_plans.snowball.toJVal)]),
            ("recommendations", JVal.arr (d.recommendations.map DebtRecommendationV.toJVal))]

/-- The default_results dict indexed by output key, as read by the per-key
merge default_results[key] in analyze_finances. -/
def defaultsJson (dr : DefaultResults) : String → JVal := fun key =>
  if key = "budget_analysis" then dr.budget_analysis.toJVal
  else if key = "savings_strategy" then dr.savings_strategy.toJVal
  else if key = "debt_reduction" then dr.debt_reduction.toJVal
  else JVal.null

/-- The three output keys iterated by the merge loop (src/App.py 366). -/
def outputKeys : List String := ["budget_analysis", "savings_strategy", "debt_reduction"]

/-- The per-key merge of analyze_finances (src/App.py 365-368): for each
output key, a truthy state value is pushed through parse_json_safely with
the fallback as decode default, and a missing or falsy value is replaced
by the fallback outright. -/
def analyzeMerge (loads : String → Option JVal) (state : SessionState)
    (defaults : String → JVal) : List (String × JVal) :=
  outputKeys.map fun key =>
    (key,
      match List.lookup key state with
      | some v => if truthy v then parse_json_safely loads v (defaults key) else defaults key
      | none => defaults key)

/-- Python dict assignment state[k] = v: the first occurrence of the key is
updated in place, a new key is appended at the end. -/
def insertState : SessionState → String → JVal → SessionState
  | [], k, v => [(k, v)]
  | (k0, v0) :: rest, k, v =>
    if k0 = k then (k, v) :: rest else (k0, v0) :: insertState rest k v

/-- Read an optional string field of a transaction dict; fails (none) when
the field is present with a non-string value. -/
def decodeStrField (fields : List (String × JVal)) (key : String) :
    Option (Option String) :=
  match List.lookup key fields with
  | none => some none
  | some (JVal.str s) => some (some s)
  | some _ => none

/-- Read an optional numeric field of a transaction dict. -/
def decodeNumField (fields : List (String × JVal)) (key : String) :
    Option (Option ℚ) :=
  match List.lookup key fields with
  | none => some none
  | some (JVal.num q) => some (some q)
  | some _ => none

/-- Recover a transaction record from the JSON-like dict held in session
state; fails on values a pandas DataFrame column could not hold. -/
def decodeTx : JVal → Option Transaction
  | JVal.obj fields =>
    match decodeStrField fields "Date", decodeStrField fields "Category",
          decodeNumField fields "Amount" with
    | some d, some c, some a => some ⟨d, c, a⟩
    | _, _, _ => none
  | _ => none

/-- Recover the transaction list from session state. -/
def decodeTxs : List JVal → Option (List Transaction)
  | [] => some []
  | j :: rest =>
    match decodeTx j, decodeTxs rest with
    | some t, some ts => some (t :: ts)
    | _, _ => none

/-- The groupby-Category Amount sums of _preprocess_transactions
(src/App.py 393): rows whose Category is missing are dropped by groupby,
missing Amounts contribute 0 to their category sum. -/
def categorySpending (txs : List Transaction) : List (String × ℚ) :=
  (txs.filter (fun t => t.category.isSome)).foldl
    (fun acc t => addToCategory acc (t.category.getD "") (t.amount.getD 0)) []

/-- The grand Amount sum of _preprocess_transactions (src/App.py 395). -/
def totalSpending (txs : List Transaction) : ℚ :=
  (txs.map (fun t => t.amount.getD 0)).sum

/-- Python-level errors that can cross the analyze_finances boundary. -/
inductive PyError where
  | dateParse : PyError
  | typeMismatch : PyError
  | coordinator : PyError
  | duplicateSession : PyError
  | notFound : PyError
deriving DecidableEq

/-- Embedding of FinanceAdvisorSystem._preprocess_transactions
(src/App.py 382-395).  The external pandas date parser is the nd
parameter (none = unparsable date, raising in the source).  The parsed
and reformatted dates live only in the local DataFrame df, so the
transactions held in session state are returned unchanged; only the
category_spending and total_spending keys are written, and only when
both the Category and the Amount column exist. -/
def preprocessTransactions (nd : String → Option String) (st : SessionState) :
    Except PyError SessionState :=
  let tsJson := (List.lookup "transactions" st).getD (JVal.arr [])
  if !truthy tsJson then Except.ok st
  else
    match tsJson with
    | JVal.arr l =>
      match decodeTxs l with
      | none => Except.error PyError.typeMismatch
      | some txs =>
        if txs.any (fun t => t.date.isSome) &&
           txs.any (fun t => match t.date with
                             | some s => (nd s).isNone
                             | none => false) then
          Except.error PyError.dateParse
        else if txs.any (fun t => t.category.isSome) &&
                txs.any (fun t => t.amount.isSome) then
          Except.ok (insertState
            (insertState st "category_spending"
              (JVal.obj ((categorySpending txs).map (fun p => (p.1, JVal.num p.2)))))
            "total_spending" (JVal.num (totalSpending txs)))
        else Except.ok st
    | _ => Except.error PyError.typeMismatch

/-- Embedding of FinanceAdvisorSystem._preprocess_manual_expenses
(src/App.py 397-405). -/
def preprocessManual (st : SessionState) : SessionState :=
  match List.lookup "manual_expenses" st with
  | some (JVal.obj mes) =>
    if mes.isEmpty then st
    else
      insertState
        (insertState st "total_manual_spending"
          (JVal.num ((mes.map (fun p =>
            match p.2 with | JVal.num q => q | _ => 0)).sum)))
        "manual_category_spending" (JVal.obj mes)
  | _ => st

/-- The session state after seeding and both preprocessing steps
(src/App.py 323-342): each preprocessor runs only when its input key is
truthy in the current state, exactly as in the source. -/
def preparedState (nd : String → Option String) (fd : FinancialData) :
    Except PyError SessionState :=
  let st0 := initialState fd
  match (if truthyOpt (List.lookup "transactions" st0)
         then preprocessTransactions nd st0 else Except.ok st0) with
  | Except.error e => Except.error e
  | Except.ok st1 =>
    Except.ok (if truthyOpt (List.lookup "manual_expenses" st1)
               then preprocessManual st1 else st1)

/-- The behaviour of one coordinator run over the session state: either a
state transformer applied to the preprocessed state (the state visible to
get_session afterwards), or an exception propagating out of run_async. -/
inductive RunOutcome where
  | success (run : SessionState → SessionState) : RunOutcome
  | failure (e : PyError) : RunOutcome

/-- A session store: the id-keyed map of the session service.
Modelled from the spec: the Session Store contract of section 4.1 (get
fails with NotFoundError when the id is absent, delete is idempotent);
the concrete store, google.adk.sessions.InMemorySessionService, is
external to the repository. -/
abbrev SessionStore := List (String × SessionState)

/-- Modelled from the spec: session creation registers the id with its
seeded state (Session Store contract, section 4.1). -/
def createSession (store : SessionStore) (sid : String) (st : SessionState) :
    SessionStore :=
  (sid, st) :: store

/-- Modelled from the spec: get fails with NotFoundError when the id is
absent (Session Store contract, section 4.1). -/
def getSession (store : SessionStore) (sid : String) :
    Except PyError SessionState :=
  match List.lookup sid store with
  | some st => Except.ok st
  | none => Except.error PyError.notFound

/-- Modelled from the spec: delete removes every entry of the id and is
idempotent (Session Store contract, section 4.1). -/
def deleteSession (store : SessionStore) (sid : String) : SessionStore :=
  store.filter (fun p => p.1 != sid)

/-- A datetime.now() value; strftime reads the fields down to seconds and
ignores the microseconds. -/
structure PyDateTime where
  year : ℕ
  month : ℕ
  day : ℕ
  hour : ℕ
  minute : ℕ
  second : ℕ
  microsecond : ℕ
deriving DecidableEq

/-- Zero-padded fixed-width decimal rendering, the digit fields of
strftime: width w gives the low w decimal digits, zero padded. -/
def padDigits : ℕ → ℕ → List Char
  | 0, _ => []
  | w + 1, n => padDigits w (n / 10) ++ [Nat.digitChar (n % 10)]

/-- The session id of analyze_finances (src/App.py 320):
finance_session_ followed by strftime of the current time with format
year-month-day, underscore, hour-minute-second. -/
def sessionId (t : PyDateTime) : String :=
  String.mk ("finance_session_".data
    ++ padDigits 4 t.year ++ padDigits 2 t.month ++ padDigits 2 t.day
    ++ ['_']
    ++ padDigits 2 t.hour ++ padDigits 2 t.minute ++ padDigits 2 t.second)

/-- The try-block of analyze_finances (src/App.py 322-374): seed and
preprocess the state, compute the eager fallback results, run the
coordinator, then merge the final session state with the fallbacks
per key.  Input validation does not occur anywhere on this path. -/
def analyzeBody (loads : String → Option JVal) (nd : String → Option String)
    (fd : FinancialData) (outcome : RunOutcome) :
    Except PyError (List (String × JVal)) :=
  match preparedState nd fd with
  | Except.error e => Except.error e
  | Except.ok st2 =>
    let dr := createDefaultResults fd
    match outcome with
    | RunOutcome.failure e => Except.error e
    | RunOutcome.success run =>
      Except.ok (analyzeMerge loads (run st2) (defaultsJson dr))

/-- Embedding of FinanceAdvisorSystem.analyze_finances (src/App.py
319-380): the result (or propagated exception) of the try-block, paired
with the session store after the finally-block, which deletes the
session id on every exit path. -/
def analyze_finances (loads : String → Option JVal) (nd : String → Option String)
    (now : PyDateTime) (fd : FinancialData) (outcome : RunOutcome)
    (store : SessionStore) :
    Except PyError (List (String × JVal)) × SessionStore :=
  (analyzeBody loads nd fd outcome,
   deleteSession (createSession store (sessionId now) (initialState fd)) (sessionId now))

/-- Modelled from the spec: the Coordinator stage pipeline of section 4.3.
The sequential agent itself (google.adk SequentialAgent and the three
LlmAgents) is external to the repository; per the spec a stage runs only
after its predecessor's artifact key is present, writes its validated
artifact under its output key on success, and on failure the remaining
stages are skipped.  Each field holds the stage's artifact on success and
none on stage failure. -/
structure StageOutcomes where
  budget : Option JVal
  savings : Option JVal
  debt : Option JVal

/-- Modelled from the spec: running the three stages in order over the
session state (Coordinator contract, section 4.3). -/
def runPipeline (o : StageOutcomes) (st : SessionState) : SessionState :=
  match o.budget with
  | none => st
  | some b =>
    let st1 := insertState st "budget_analysis" b
    match o.savings with
    | none => st1
    | some s =>
      let st2 := insertState st1 "savings_strategy" s
      match o.debt with
      | none => st2
      | some d => insertState st2 "debt_reduction" d

/-- A required float field of a pydantic schema: present and numeric. -/
def reqNumField (fields : List (String × JVal)) (key : String) : Bool :=
  match List.lookup key fields with
  | some (JVal.num _) => true
  | _ => false

/-- An Optional float field of a pydantic schema: absent, null or numeric. -/
def optNumField (fields : List (String × JVal)) (key : String) : Bool :=
  match List.lookup key fields with
  | none => true
  | some JVal.null => true
  | some (JVal.num _) => true
  | _ => false

/-- A required str field of a pydantic schema. -/
def reqStrField (fields : List (String × JVal)) (key : String) : Bool :=
  match List.lookup key fields with
  | some (JVal.str _) => true
  | _ => false

/-- An Optional str field of a pydantic schema. -/
def optStrField (fields : List (String × JVal)) (key : String) : Bool :=
  match List.lookup key fields with
  | none => true
  | some JVal.null => true
  | some (JVal.str _) => true
  | _ => false

/-- A required list field whose elements all satisfy the element check. -/
def listField (fields : List (String × JVal)) (key : String)
    (check : JVal → Bool) : Bool :=
  match List.lookup key fields with
  | some (JVal.arr l) => l.all check
  | _ => false

/-- An Optional list field. -/
def optListField (fields : List (String × JVal)) (key : String)
    (check : JVal → Bool) : Bool :=
  match List.lookup key fields with
  | none => true
  | some JVal.null => true
  | some (JVal.arr l) => l.all check
  | _ => false

/-- A required integer field (int months_to_payoff). -/
def reqIntField (fields : List (String × JVal)) (key : String) : Bool :=
  match List.lookup key fields with
  | some (JVal.num q) => q.den == 1
  | _ => false

/-- Structural validation against the SpendingCategory schema (src/App.py
140-143). -/
def isSpendingCategory : JVal → Bool
  | JVal.obj fields =>
    reqStrField fields "category" && reqNumField fields "amount" &&
    optNumField fields "percentage"
  | _ => false

/-- Structural validation against the SpendingRecommendation schema
(src/App.py 145-148). -/
def isSpendingRecommendation : JVal → Bool
  | JVal.obj fields =>
    reqStrField fields "category" && reqStrField fields "recommendation" &&
    optNumField fields "potential_savings"
  | _ => false

/-- Structural validation against the BudgetAnalysis schema
(src/App.py 150-154). -/
def isBudgetAnalysis : JVal → Bool
  | JVal.obj fields =>
    reqNumField fields "total_expenses" && optNumField fields "monthly_income" &&
    listField fields "spending_categories" isSpendingCategory &&
    listField fields "recommendations" isSpendingRecommendation
  | _ => false

/-- Structural validation against the EmergencyFund schema
(src/App.py 156-159). -/
def isEmergencyFund : JVal → Bool
  | JVal.obj fields =>
    reqNumField fields "recommended_amount" && optNumField fields "current_amount" &&
    reqStrField fields "current_status"
  | _ => false

/-- Structural validation against the SavingsRecommendation schema
(src/App.py 161-164). -/
def isSavingsRecommendation : JVal → Bool
  | JVal.obj fields =>
    reqStrField fields "category" && reqNumField fields "amount" &&
    optStrField fields "rationale"
  | _ => false

/-- Structural validation against the AutomationTechnique schema
(src/App.py 166-168). -/
def isAutomationTechnique : JVal → Bool
  | JVal.obj fields => reqStrField fields "name" && reqStrField fields "description"
  | _ => false

/-- Structural validation against the SavingsStrategy schema
(src/App.py 170-173). -/
def isSavingsStrategy : JVal → Bool
  | JVal.obj fields =>
    (match List.lookup "emergency_fund" fields with
     | some e => isEmergencyFund e
     | none => false) &&
    listField fields "recommendations" isSavingsRecommendation &&
    optListField fields "automation_techniques" isAutomationTechnique
  | _ => false

/-- Structural validation against the Debt schema (src/App.py 175-179). -/
def isDebtRecord : JVal → Bool
  | JVal.obj fields =>
    reqStrField fields "name" && reqNumField fields "amount" &&
    reqNumField fields "interest_rate" && optNumField fields "min_payment"
  | _ => false

/-- Structural validation against the PayoffPlan schema
(src/App.py 181-184). -/
def isPayoffPlan : JVal → Bool
  | JVal.obj fields =>
    reqNumField fields "total_interest" && reqIntField fields "months_to_payoff" &&
    optNumField fields "monthly_payment"
  | _ => false

/-- Structural validation against the PayoffPlans schema
(src/App.py 186-188). -/
def isPayoffPlans : JVal → Bool
  | JVal.obj fields =>
    (match List.lookup "avalanche" fields with
     | some a => isPayoffPlan a
     | none => false) &&
    (match List.lookup "snowball" fields with
     | some s => isPayoffPlan s
     | none => false)
  | _ => false

/-- Structural validation against the DebtRecommendation schema
(src/App.py 190-193). -/
def isDebtRecommendation : JVal → Bool
  | JVal.obj fields =>
    reqStrField fields "title" && reqStrField fields "description" &&
    optStrField fields "impact"
  | _ => false

/-- Structural validation against the DebtReduction schema
(src/App.py 195-199). -/
def isDebtReduction : JVal → Bool
  | JVal.obj fields =>
    reqNumField fields "total_debt" && listField fields "debts" isDebtRecord &&
    (match List.lookup "payoff_plans" fields with
     | some p => isPayoffPlans p
     | none => false) &&
    optListField fields "recommendations" isDebtRecommendation
  | _ => false

/-- The stage output schema attached to each output key
(output_schema of the three LlmAgents, src/App.py 247, 273, 299). -/
def conformsKey (key : String) (j : JVal) : Bool :=
  if key = "budget_analysis" then isBudgetAnalysis j
  else if key = "savings_strategy" then isSavingsStrategy j
  else if key = "debt_reduction" then isDebtReduction j
  else false

/-- A concrete empty financial_data dict (no keys present). -/
def emptyInput : FinancialData := FinancialData.mk none none none none none

/-- The concrete scenario input of spec section 8: income 3000, manual
expenses Housing 1200 and Food 300, one debt Card of 2000 at 20 percent
with minimum payment 50. -/
def sampleInput : FinancialData :=
  FinancialData.mk (some 3000) (some 0) none
    (some [("Housing", 1200), ("Food", 300)])
    (some [DebtEntry.mk (some "Card") (some 2000) (some 20) (some 50)])

/-- A malformed financial_data dict: a negative manual expense amount. -/
def negInput : FinancialData :=
  FinancialData.mk (some 3000) (some 0) none (some [("Housing", -100)]) (some [])

/-- A concrete json.loads stub decoding exactly one string. -/
def loads0 : String → Option JVal := fun s =>
  if s = "[1]" then some (JVal.arr [JVal.num 1]) else none

/-- A concrete date parser that accepts no date (never consulted when the
input has no transactions). -/
def nd0 : String → Option String := fun _ => none

/-- A concrete date parser normalizing one slash-separated date. -/
def ndSample : String → Option String := fun s =>
  if s = "2024/01/05" then some "2024-01-05" else none

/-- A concrete invocation time. -/
def now0 : PyDateTime := PyDateTime.mk 2026 10 12 15 30 45 0

/-- A concrete validated budget_analysis artifact (conforms to the
BudgetAnalysis schema). -/
def bA0 : JVal :=
  JVal.obj [("total_expenses", JVal.num 100),
            ("spending_categories", JVal.arr []),
            ("recommendations", JVal.arr [])]

/-- A concrete coordinator run writing one validated budget artifact. -/
def run0 : SessionState → SessionState := fun st =>
  insertState st "budget_analysis" bA0

/-- A concrete transaction dict with an unnormalized slash date. -/
def txSample : JVal :=
  JVal.obj [("Date", JVal.str "2024/01/05"), ("Category", JVal.str "Food"),
            ("Amount", JVal.num 50)]

/-- Association-list lookup at a cons cell, in propositional-if form. -/
theorem lookup_cons {β : Type} (k k0 : String) (v0 : β) (rest : List (String × β)) :
    List.lookup k ((k0, v0) :: rest) =
      if k = k0 then some v0 else List.lookup k rest := by
  by_cases h : k = k0
  · subst h; simp [List.lookup]
  · simp [List.lookup, h, beq_false_of_ne h]

/-- Looking a key up after a dict assignment: the assigned key reads the
new value, every other key is unchanged. -/
theorem lookup_insertState (st : SessionState) (k k' : String) (v : JVal) :
    List.lookup k (insertState st k' v) =
      if k' = k then some v else List.lookup k st := by
  induction st with
  | nil =>
    rw [insertState, lookup_cons]
    by_cases h : k' = k <;> simp [h]
    · intro hc; exact h hc.symm
  | cons p rest ih =>
    obtain ⟨k0, v0⟩ := p
    rw [insertState]
    by_cases h0 : k0 = k'
    · subst h0
      rw [if_pos rfl, lookup_cons, lookup_cons]
      by_cases h : k = k0
      · rw [if_pos h, if_pos h.symm]
      · rw [if_neg h, if_neg (fun hc => h hc.symm), if_neg h]
    · rw [if_neg h0, lookup_cons, lookup_cons, ih]
      by_cases h : k = k0
      · subst h
        rw [if_pos rfl, if_pos rfl, if_neg (fun hc => h0 hc.symm)]
      · rw [if_neg h, if_neg h]

/-- An assigned dict never loses a key: anything present before an
assignment is still present after it. -/
theorem insertState_keeps_keys (st : SessionState) (k k' : String) (v v0 : JVal)
    (h : List.lookup k st = some v0) :
    ∃ v1, List.lookup k (insertState st k' v) = some v1 := by
  rw [lookup_insertState]
  by_cases hk : k' = k <;> simp [hk, h]

/-- Looking a category up after one aggregation step. -/
theorem lookup_addToCategory (l : List (String × ℚ)) (c cat : String) (amt : ℚ) :
    List.lookup c (addToCategory l cat amt) =
      if cat = c then some (((List.lookup c l).getD 0) + amt)
      else List.lookup c l := by
  induction l with
  | nil =>
    rw [addToCategory, lookup_cons]
    by_cases h : cat = c <;> simp [h]
    · intro hc; exact h hc.symm
  | cons p rest ih =>
    obtain ⟨c0, a0⟩ := p
    rw [addToCategory]
    by_cases h0 : c0 = cat
    · subst h0
      rw [if_pos rfl, lookup_cons, lookup_cons]
      by_cases h : c = c0
      · rw [if_pos h, if_pos h, if_pos h.symm]
        subst h; simp
      · rw [if_neg h, if_neg h, if_neg (fun hc => h hc.symm)]
    · rw [if_neg h0, lookup_cons, lookup_cons, ih]
      by_cases h : c = c0
      · subst h
        rw [if_pos rfl, if_pos rfl, if_neg (fun hc => h0 hc.symm)]
      · rw [if_neg h, if_neg h]

/-- Looking a category up after aggregating a whole list: the relevant
rows are the ones whose key maps to that category, and their amounts are
added to whatever the accumulator already held. -/
theorem lookup_foldl_addToCategory {α : Type} (keyf : α → String) (amtf : α → ℚ)
    (l : List α) (acc : List (String × ℚ)) (c : String) :
    List.lookup c (l.foldl (fun m t => addToCategory m (keyf t) (amtf t)) acc) =
      if (l.filter (fun t => keyf t == c)).isEmpty then List.lookup c acc
      else some (((List.lookup c acc).getD 0) +
        ((l.filter (fun t => keyf t == c)).map amtf).sum) := by
  induction l generalizing acc with
  | nil => simp
  | cons t rest ih =>
    rw [List.foldl_cons, ih, List.filter_cons]
    by_cases h : keyf t = c
    · have hb : (keyf t == c) = true := by simp [h]
      simp only [hb, if_true, List.isEmpty_cons]
      rw [lookup_addToCategory, if_pos h]
      by_cases he : (rest.filter (fun t => keyf t == c)).isEmpty
      · rw [List.isEmpty_iff] at he
        simp [he]
      · simp [he, add_assoc]
    · have hb : (keyf t == c) = false := by simp [h]
      simp only [hb, Bool.false_eq_true, if_false]
      rw [lookup_addToCategory, if_neg h]

/-- Aggregation starting from the empty dict. -/
theorem lookup_foldl_addToCategory_nil {α : Type} (keyf : α → String)
    (amtf : α → ℚ) (l : List α) (c : String) :
    List.lookup c (l.foldl (fun m t => addToCategory m (keyf t) (amtf t)) []) =
      (if (l.filter (fun t => keyf t == c)).isEmpty then none
       else some ((l.filter (fun t => keyf t == c)).map amtf).sum) := by
  rw [lookup_foldl_addToCategory]
  by_cases he : (l.filter (fun t => keyf t == c)).isEmpty <;> simp [he]

/-- Lookup commutes with mapping over the values of an association list. -/
theorem lookup_map_value (l : List (String × ℚ)) (f : ℚ → JVal) (c : String) :
    List.lookup c (l.map (fun p => (p.1, f p.2))) = (List.lookup c l).map f := by
  induction l with
  | nil => simp
  | cons p rest ih =>
    obtain ⟨c0, a0⟩ := p
    rw [List.map_cons, lookup_cons, lookup_cons]
    by_cases h : c = c0
    · rw [if_pos h, if_pos h]; rfl
    · rw [if_neg h, if_neg h, ih]

/-- A decoded transaction list is empty exactly when its source is. -/
theorem decodeTxs_ne_nil {ts : List JVal} {txs : List Transaction}
    (h : decodeTxs ts = some txs) (hne : ts ≠ []) : txs ≠ [] := by
  cases ts with
  | nil => exact absurd rfl hne
  | cons j rest =>
    cases hd : decodeTx j <;> cases hr : decodeTxs rest <;>
      simp [decodeTxs, hd, hr] at h
    simp [← h]

/-- Percentages, as a map over an expense dict, distribute over the sum. -/
theorem sum_map_div_mul (l : List (String × ℚ)) (T : ℚ) :
    (l.map (fun p => p.2 / T * 100)).sum = (l.map Prod.snd).sum / T * 100 := by
  induction l with
  | nil => simp
  | cons p rest ih => simp [ih, add_div, add_mul]

/-- The transaction preprocessor writes only the category_spending and
total_spending keys: every other key reads the same before and after. -/
theorem preprocessTransactions_lookup_other (nd : String → Option String)
    (st st' : SessionState) (k : String)
    (h : preprocessTransactions nd st = Except.ok st')
    (h1 : k ≠ "category_spending") (h2 : k ≠ "total_spending") :
    List.lookup k st' = List.lookup k st := by
  unfold preprocessTransactions at h
  dsimp only at h
  split at h
  · cases h; rfl
  · split at h
    · split at h
      · cases h
      · split at h
        · cases h
        · split at h
          · cases h
            rw [lookup_insertState, lookup_insertState]
            rw [if_neg (fun hc => h2 hc.symm), if_neg (fun hc => h1 hc.symm)]
          · cases h; rfl
    · cases h

/-- The manual-expense preprocessor writes only the total_manual_spending
and manual_category_spending keys. -/
theorem preprocessManual_lookup_other (st : SessionState) (k : String)
    (h1 : k ≠ "total_manual_spending") (h2 : k ≠ "manual_category_spending") :
    List.lookup k (preprocessManual st) = List.lookup k st := by
  unfold preprocessManual
  split
  · split
    · rfl
    · rw [lookup_insertState, lookup_insertState]
      rw [if_neg (fun hc => h2 hc.symm), if_neg (fun hc => h1 hc.symm)]
  · rfl

/-- A deleted session id is gone from the store. -/
theorem lookup_deleteSession (store : SessionStore) (sid : String) :
    List.lookup sid (deleteSession store sid) = none := by
  induction store with
  | nil => rfl
  | cons p rest ih =>
    obtain ⟨k0, st0⟩ := p
    rw [deleteSession, List.filter_cons]
    by_cases h : k0 = sid
    · have : ((k0, st0).1 != sid) = false := by simp [h]
      simp only [this, Bool.false_eq_true, if_false]
      exact ih
    · have : ((k0, st0).1 != sid) = true := by simp [h]
      simp only [this, if_true]
      rw [lookup_cons, if_neg (fun hc => h hc.symm)]
      exact ih

/-- The merge result holds exactly the three output keys, in order. -/
theorem analyzeMerge_keys (loads : String → Option JVal) (state : SessionState)
    (defaults : String → JVal) :
    (analyzeMerge loads state defaults).map Prod.fst = outputKeys := rfl

/-- Reading one output key out of the merge result. -/
theorem lookup_analyzeMerge (loads : String → Option JVal) (state : SessionState)
    (defaults : String → JVal) (key : String) (hk : key ∈ outputKeys) :
    List.lookup key (analyzeMerge loads state defaults) =
      some (match List.lookup key state with
            | some v => if truthy v then parse_json_safely loads v (defaults key)
                        else defaults key
            | none => defaults key) := by
  fin_cases hk <;> rfl

/-- The seeded initial state never contains a stage output key. -/
theorem lookup_initialState_output (fd : FinancialData) (key : String)
    (hk : key ∈ outputKeys) :
    List.lookup key (initialState fd) = none := by
  fin_cases hk <;> rfl

/-- The prepared (seeded and preprocessed) state agrees with the seeded
state on every key other than the four derived-aggregate keys. -/
theorem lookup_preparedState_eq_initial (nd : String → Option String)
    (fd : FinancialData) (st2 : SessionState) (k : String)
    (h : preparedState nd fd = Except.ok st2)
    (h1 : k ≠ "category_spending") (h2 : k ≠ "total_spending")
    (h3 : k ≠ "total_manual_spending") (h4 : k ≠ "manual_category_spending") :
    List.lookup k st2 = List.lookup k (initialState fd) := by
  unfold preparedState at h
  dsimp only at h
  split at h
  · cases h
  · rename_i st1 heq
    cases h
    have hst1 : List.lookup k st1 = List.lookup k (initialState fd) := by
      split at heq
      · exact preprocessTransactions_lookup_other nd _ _ k heq h1 h2
      · cases heq; rfl
    split
    · rw [preprocessManual_lookup_other _ _ h3 h4, hst1]
    · exact hst1

/-- The prepared state never contains a stage output key. -/
theorem lookup_preparedState_output (nd : String → Option String)
    (fd : FinancialData) (st2 : SessionState) (key : String)
    (h : preparedState nd fd = Except.ok st2) (hk : key ∈ outputKeys) :
    List.lookup key st2 = none := by
  have hd : List.lookup key st2 = List.lookup key (initialState fd) := by
    fin_cases hk <;>
      exact lookup_preparedState_eq_initial nd fd st2 _ h
        (by decide) (by decide) (by decide) (by decide)
  rw [hd]
  exact lookup_initialState_output fd key hk

/-- Claim C5: for every financial_data input whose resolved fallback
total_expenses is strictly positive, the percentage fields of the fallback
budget_analysis spending_categories (each amount / total_expenses * 100)
sum to exactly 100 (exact rational arithmetic, hence within any rounding
epsilon), and when total_expenses is 0 every percentage is 0. -/
theorem fallback_percentages_sum_to_100 (fd : FinancialData) :
    (0 < (createDefaultResults fd).budget_analysis.total_expenses →
      ((createDefaultResults fd).budget_analysis.spending_categories.map
        SpendingCategoryV.percentage).sum = 100) ∧
    ((createDefaultResults fd).budget_analysis.total_expenses = 0 →
      ∀ c ∈ (createDefaultResults fd).budget_analysis.spending_categories,
        c.percentage = 0) := by
  have hT : (createDefaultResults fd).budget_analysis.total_expenses =
      ((resolvedExpenses fd).map Prod.snd).sum := rfl
  have hc : (createDefaultResults fd).budget_analysis.spending_categories =
      (resolvedExpenses fd).map (fun p =>
        ⟨p.1, p.2, if ((resolvedExpenses fd).map Prod.snd).sum > 0
          then p.2 / ((resolvedExpenses fd).map Prod.snd).sum * 100 else 0⟩) := rfl
  constructor
  · intro hpos
    rw [hT] at hpos
    rw [hc, List.map_map]
    have hfun : (SpendingCategoryV.percentage ∘ fun p : String × ℚ =>
        (⟨p.1, p.2, if ((resolvedExpenses fd).map Prod.snd).sum > 0
          then p.2 / ((resolvedExpenses fd).map Prod.snd).sum * 100 else 0⟩ :
          SpendingCategoryV)) =
        fun p : String × ℚ =>
          p.2 / ((resolvedExpenses fd).map Prod.snd).sum * 100 := by
      funext p
      simp [hpos]
    rw [hfun, sum_map_div_mul, div_self (ne_of_gt hpos), one_mul]
  · intro hzero
    rw [hT] at hzero
    rw [hc]
    intro c hcmem
    rw [List.mem_map] at hcmem
    obtain ⟨p, -, rfl⟩ := hcmem
    simp [hzero]

/-- Claim C5 witness: on the spec section 8 scenario input the fallback
total_expenses is 1500 and the percentages sum to 100; on an input with an
all-zero expense dict the percentage of each entry is 0. -/
theorem fallback_percentages_sum_to_100_witness :
    ((createDefaultResults sampleInput).budget_analysis.spending_categories.map
      SpendingCategoryV.percentage).sum = 100 ∧
    (∀ c ∈ (createDefaultResults
        (FinancialData.mk none none none (some [("Housing", 0)]) none)
        ).budget_analysis.spending_categories, c.percentage = 0) := by
  constructor
  · exact (fallback_percentages_sum_to_100 sampleInput).1
      (by norm_num [createDefaultResults, resolvedExpenses, sampleInput])
  · exact (fallback_percentages_sum_to_100 _).2
      (by norm_num [createDefaultResults, resolvedExpenses])

/-- Claim C6: for every financial_data input, the fallback debt_reduction
has total_debt the sum of the input debt amounts, avalanche total_interest
20 percent and snowball total_interest 25 percent of total_debt, 24 months
to payoff in both plans, and monthly_payment total_debt / 24 in both plans
(0 when there are no debts). -/
theorem fallback_debt_reduction_formulas (fd : FinancialData) :
    (createDefaultResults fd).debt_reduction.total_debt =
      ((fd.debts.getD []).map (fun d => d.amount.getD 0)).sum ∧
    (createDefaultResults fd).debt_reduction.payoff_plans.avalanche.total_interest =
      ((fd.debts.getD []).map (fun d => d.amount.getD 0)).sum * 0.2 ∧
    (createDefaultResults fd).debt_reduction.payoff_plans.snowball.total_interest =
      ((fd.debts.getD []).map (fun d => d.amount.getD 0)).sum * 0.25 ∧
    (createDefaultResults fd).debt_reduction.payoff_plans.avalanche.months_to_payoff = 24 ∧
    (createDefaultResults fd).debt_reduction.payoff_plans.snowball.months_to_payoff = 24 ∧
    (createDefaultResults fd).debt_reduction.payoff_plans.avalanche.monthly_payment =
      ((fd.debts.getD []).map (fun d => d.amount.getD 0)).sum / 24 ∧
    (createDefaultResults fd).debt_reduction.payoff_plans.snowball.monthly_payment =
      ((fd.debts.getD []).map (fun d => d.amount.getD 0)).sum / 24 ∧
    (fd.debts.getD [] = [] →
      (createDefaultResults fd).debt_reduction.payoff_plans.avalanche.monthly_payment = 0 ∧
      (createDefaultResults fd).debt_reduction.payoff_plans.snowball.monthly_payment = 0) := by
  refine ⟨rfl, rfl, rfl, rfl, rfl, rfl, rfl, ?_⟩
  intro h
  have hz : ((fd.debts.getD []).map (fun d => d.amount.getD 0)).sum / 24 = (0 : ℚ) := by
    rw [h]
    norm_num
  exact ⟨hz, hz⟩

/-- Claim C6 witness: on the spec section 8 scenario input the fallback
total_debt is 2000 with monthly payment 2000 / 24, and with no debts the
monthly payment is 0. -/
theorem fallback_debt_reduction_formulas_witness :
    (createDefaultResults sampleInput).debt_reduction.total_debt = 2000 ∧
    (createDefaultResults sampleInput).debt_reduction.payoff_plans.avalanche.monthly_payment
      = 2000 / 24 ∧
    (createDefaultResults emptyInput).debt_reduction.payoff_plans.snowball.monthly_payment
      = 0 := by
  refine ⟨?_, ?_, ((fallback_debt_reduction_formulas emptyInput).2.2.2.2.2.2.2 rfl).2⟩
  · rw [(fallback_debt_reduction_formulas sampleInput).1]
    norm_num [sampleInput]
  · rw [(fallback_debt_reduction_formulas sampleInput).2.2.2.2.2.1]
    norm_num [sampleInput]

/-- Claim C7: the fallback synthesizer resolves its expense source in
order: the manual_expenses dict when nonempty, otherwise the per-category
aggregation of the transactions when nonempty, otherwise no expenses at
all (total 0).  Presence is Python truthiness: an empty dict counts as
absent, exactly as in the source. -/
theorem fallback_expense_source_resolution (fd : FinancialData) :
    (fd.manual_expenses.getD [] ≠ [] →
      resolvedExpenses fd = fd.manual_expenses.getD []) ∧
    (fd.manual_expenses.getD [] = [] → fd.transactions.getD [] ≠ [] →
      (resolvedExpenses fd = aggregateTxExpenses (fd.transactions.getD []) ∧
       ∀ cat : String,
         List.lookup cat (resolvedExpenses fd) =
           (if ((fd.transactions.getD []).filter
                (fun t => t.category.getD "Uncategorized" == cat)).isEmpty then none
            else some (((fd.transactions.getD []).filter
                (fun t => t.category.getD "Uncategorized" == cat)).map
                (fun t => t.amount.getD 0)).sum))) ∧
    (fd.manual_expenses.getD [] = [] → fd.transactions.getD [] = [] →
      resolvedExpenses fd = [] ∧
      (createDefaultResults fd).budget_analysis.total_expenses = 0) := by
  refine ⟨?_, ?_, ?_⟩
  · intro h
    rw [resolvedExpenses]
    have : (fd.manual_expenses.getD []).isEmpty = false := by
      rw [List.isEmpty_eq_false_iff_exists_mem]
      exact List.exists_mem_of_ne_nil _ h
    simp [this]
  · intro hm ht
    have hres : resolvedExpenses fd = aggregateTxExpenses (fd.transactions.getD []) := by
      rw [resolvedExpenses]
      have h1 : (fd.manual_expenses.getD []).isEmpty = true := by
        rw [List.isEmpty_iff]; exact hm
      have h2 : (fd.transactions.getD []).isEmpty = false := by
        rw [List.isEmpty_eq_false_iff_exists_mem]
        exact List.exists_mem_of_ne_nil _ ht
      simp [h1, h2]
    refine ⟨hres, fun cat => ?_⟩
    rw [hres, aggregateTxExpenses, lookup_foldl_addToCategory_nil]
  · intro hm ht
    have hres : resolvedExpenses fd = [] := by
      rw [resolvedExpenses]
      simp [hm, ht]
    constructor
    · exact hres
    · show ((resolvedExpenses fd).map Prod.snd).sum = 0
      rw [hres]
      rfl

/-- Claim C7 witness: the scenario input resolves to its manual expenses;
an input with only transactions resolves to their per-category sums (two
Food rows of 30 and 20 summing to 50); an input with neither has fallback
total_expenses 0. -/
theorem fallback_expense_source_resolution_witness :
    resolvedExpenses sampleInput = [("Housing", 1200), ("Food", 300)] ∧
    List.lookup "Food" (resolvedExpenses (FinancialData.mk none none
      (some [Transaction.mk none (some "Food") (some 30),
             Transaction.mk none (some "Food") (some 20)]) none none)) = some 50 ∧
    (createDefaultResults emptyInput).budget_analysis.total_expenses = 0 := by
  refine ⟨(fallback_expense_source_resolution sampleInput).1 (by decide), ?_,
    ((fallback_expense_source_resolution emptyInput).2.2 rfl rfl).2⟩
  have h := ((fallback_expense_source_resolution (FinancialData.mk none none
      (some [Transaction.mk none (some "Food") (some 30),
             Transaction.mk none (some "Food") (some 20)]) none none)).2.1
      rfl (by decide)).2 "Food"
  rw [h]
  norm_num

/-- Claim C2: on every exit path of analyze_finances (coordinator success,
coordinator exception, preprocessing exception), the finally-block deletes
the session created for the run, so a get on that session id afterwards
fails with NotFoundError. -/
theorem session_deleted_on_every_exit_path (loads : String → Option JVal)
    (nd : String → Option String) (now : PyDateTime) (fd : FinancialData)
    (outcome : RunOutcome) (store : SessionStore) :
    getSession ((analyze_finances loads nd now fd outcome store).2) (sessionId now) =
      Except.error PyError.notFound := by
  show getSession (deleteSession (createSession store (sessionId now) (initialState fd))
    (sessionId now)) (sessionId now) = Except.error PyError.notFound
  rw [getSession, lookup_deleteSession]

/-- Claim C10: parse_json_safely is total with the source's three
behaviours (non-string passed through, decodable string decoded, failed
decode replaced by the default), and consequently the per-key merge of
analyze_finances returns a decodable stage output to the caller as-is even
when it violates the stage's output schema, instead of replacing it with
the fallback value. -/
theorem parse_json_safely_total_no_validation (loads : String → Option JVal)
    (dflt : JVal) (dfun : String → JVal) :
    (∀ j : JVal, (∀ s, j ≠ JVal.str s) → parse_json_safely loads j dflt = j) ∧
    (∀ s j, loads s = some j → parse_json_safely loads (JVal.str s) dflt = j) ∧
    (∀ s, loads s = none → parse_json_safely loads (JVal.str s) dflt = dflt) ∧
    (∀ (state : SessionState) (key s : String) (j : JVal),
      key ∈ outputKeys → List.lookup key state = some (JVal.str s) →
      s ≠ "" → loads s = some j → conformsKey key j = false →
      List.lookup key (analyzeMerge loads state dfun) = some j) := by
  refine ⟨?_, ?_, ?_, ?_⟩
  · intro j hj
    cases j with
    | str s => exact absurd rfl (hj s)
    | null => rfl
    | bool b => rfl
    | num q => rfl
    | arr elems => rfl
    | obj fields => rfl
  · intro s j h
    simp [parse_json_safely, h]
  · intro s h
    simp [parse_json_safely, h]
  · intro state key s j hk hlk hs hlds hconf
    rw [lookup_analyzeMerge loads state dfun key hk, hlk]
    have hse : s.isEmpty = false := by
      cases he : s.isEmpty
      · rfl
      · exact absurd ((String.isEmpty_iff s).mp he) hs
    have htr : truthy (JVal.str s) = true := by
      show (!s.isEmpty) = true
      rw [hse]
      rfl
    simp [htr, parse_json_safely, hlds]

/-- Claim C10 witness: with a decoder accepting exactly the string
encoding a one-element array, a non-string value passes through, a failed
decode yields the default, the decoded array violates the BudgetAnalysis
schema, and the merge still returns it as-is instead of the fallback. -/
theorem parse_json_safely_total_no_validation_witness :
    parse_json_safely loads0 (JVal.num 5) JVal.null = JVal.num 5 ∧
    parse_json_safely loads0 (JVal.str "oops") JVal.null = JVal.null ∧
    conformsKey "budget_analysis" (JVal.arr [JVal.num 1]) = false ∧
    List.lookup "budget_analysis"
      (analyzeMerge loads0 [("budget_analysis", JVal.str "[1]")]
        (fun _ => JVal.null)) = some (JVal.arr [JVal.num 1]) := by
  refine ⟨?_, ?_, rfl, ?_⟩
  · exact (parse_json_safely_total_no_validation loads0 JVal.null
      (fun _ => JVal.null)).1 (JVal.num 5) (fun s h => by cases h)
  · exact (parse_json_safely_total_no_validation loads0 JVal.null
      (fun _ => JVal.null)).2.2.1 "oops" rfl
  · exact (parse_json_safely_total_no_validation loads0 JVal.null
      (fun _ => JVal.null)).2.2.2 [("budget_analysis", JVal.str "[1]")]
      "budget_analysis" "[1]" (JVal.arr [JVal.num 1])
      (by decide) rfl (by decide) rfl rfl

/-- Claim C1: whenever analyze_finances returns (coordinator run
completed, preprocessing succeeded), the result holds exactly the three
output keys; each key whose final session state holds a truthy validated
artifact carries that artifact, and each key missing from the final state
(or holding a falsy value) carries the fallback synthesizer's value. -/
theorem analyze_returns_all_three_keys (loads : String → Option JVal)
    (nd : String → Option String) (now : PyDateTime) (fd : FinancialData)
    (store : SessionStore) (run : SessionState → SessionState)
    (st2 : SessionState) (hpre : preparedState nd fd = Except.ok st2) :
    (analyze_finances loads nd now fd (RunOutcome.success run) store).1 =
      Except.ok (analyzeMerge loads (run st2)
        (defaultsJson (createDefaultResults fd))) ∧
    (analyzeMerge loads (run st2)
      (defaultsJson (createDefaultResults fd))).map Prod.fst = outputKeys ∧
    (∀ key ∈ outputKeys, ∀ v j,
      List.lookup key (run st2) = some v → truthy v = true →
      (∀ d, parse_json_safely loads v d = j) → conformsKey key j = true →
      List.lookup key (analyzeMerge loads (run st2)
        (defaultsJson (createDefaultResults fd))) = some j) ∧
    (∀ key ∈ outputKeys,
      (List.lookup key (run st2) = none ∨
       ∃ v, List.lookup key (run st2) = some v ∧ truthy v = false) →
      List.lookup key (analyzeMerge loads (run st2)
        (defaultsJson (createDefaultResults fd))) =
        some (defaultsJson (createDefaultResults fd) key)) := by
  refine ⟨?_, analyzeMerge_keys loads _ _, ?_, ?_⟩
  · show (analyzeBody loads nd fd (RunOutcome.success run), _).1 = _
    unfold analyzeBody
    rw [hpre]
  · intro key hk v j hv htr hdec hcf
    rw [lookup_analyzeMerge loads _ _ key hk, hv]
    simp [htr, hdec]
  · intro key hk hmiss
    rw [lookup_analyzeMerge loads _ _ key hk]
    rcases hmiss with hnone | ⟨v, hv, hfal⟩
    · rw [hnone]
    · rw [hv]
      simp [hfal]

/-- Claim C1 witness: with a coordinator run that wrote one validated
budget artifact into an empty input's session, the merged result carries
that artifact under budget_analysis and the fallback values under
savings_strategy and debt_reduction. -/
theorem analyze_returns_all_three_keys_witness :
    (analyzeMerge loads0 (run0 (initialState emptyInput))
      (defaultsJson (createDefaultResults emptyInput))).map Prod.fst = outputKeys ∧
    List.lookup "budget_analysis" (analyzeMerge loads0 (run0 (initialState emptyInput))
      (defaultsJson (createDefaultResults emptyInput))) = some bA0 ∧
    List.lookup "savings_strategy" (analyzeMerge loads0 (run0 (initialState emptyInput))
      (defaultsJson (createDefaultResults emptyInput))) =
      some (defaultsJson (createDefaultResults emptyInput) "savings_strategy") := by
  obtain ⟨-, hkeys, hval, hdef⟩ := analyze_returns_all_three_keys loads0 nd0 now0
    emptyInput [] run0 (initialState emptyInput) rfl
  refine ⟨hkeys, ?_, ?_⟩
  · exact hval "budget_analysis" (by decide) bA0 bA0 rfl rfl (fun d => rfl) rfl
  · exact hdef "savings_strategy" (by decide) (Or.inl rfl)

/-- Claim C3 counterexample: analyze_finances performs no input
validation: on a malformed input with a negative manual expense amount the
call is not rejected; it runs to a normal merged result. -/
theorem no_input_validation_cex :
    (analyze_finances loads0 nd0 now0 negInput (RunOutcome.success id) []).1 =
      Except.ok (analyzeMerge loads0 (preprocessManual (initialState negInput))
        (defaultsJson (createDefaultResults negInput))) ∧
    (analyze_finances loads0 nd0 now0 negInput (RunOutcome.success id) []).1.isOk
      = true := by
  constructor
  · rfl
  · rfl

/-- Claim C3 (amended): analyze_finances never rejects an input: every
error it propagates is a preprocessing failure or the coordinator's own
exception, and for every input (malformed ones with negative amounts
included) whose preprocessing succeeds, a successful coordinator run
yields the normal merged result. -/
theorem no_input_validation (loads : String → Option JVal)
    (nd : String → Option String) (fd : FinancialData) :
    (∀ (outcome : RunOutcome) (e : PyError),
      analyzeBody loads nd fd outcome = Except.error e →
      preparedState nd fd = Except.error e ∨ outcome = RunOutcome.failure e) ∧
    (∀ st2 run, preparedState nd fd = Except.ok st2 →
      analyzeBody loads nd fd (RunOutcome.success run) =
        Except.ok (analyzeMerge loads (run st2)
          (defaultsJson (createDefaultResults fd)))) := by
  constructor
  · intro outcome e h
    unfold analyzeBody at h
    split at h
    · rename_i e0 heq
      cases h
      exact Or.inl heq
    · dsimp only at h
      split at h
      · cases h
        exact Or.inr rfl
      · cases h
  · intro st2 run hpre
    unfold analyzeBody
    rw [hpre]

/-- Claim C3 (amended) witness: the malformed negative-amount input is
processed like any other: its prepared state is the manual-preprocessed
seeded state and the body returns the merged results. -/
theorem no_input_validation_witness :
    analyzeBody loads0 nd0 negInput (RunOutcome.success id) =
      Except.ok (analyzeMerge loads0 (id (preprocessManual (initialState negInput)))
        (defaultsJson (createDefaultResults negInput))) :=
  (no_input_validation loads0 nd0 negInput).2
    (preprocessManual (initialState negInput)) id rfl

/-- Claim C4: when the Budget stage succeeded with a validated truthy
artifact and the Savings stage failed (so, per the coordinator contract,
the Debt stage was skipped for want of the savings_strategy key), the
returned result carries the real budget artifact under budget_analysis
and the fallback values under savings_strategy and debt_reduction. -/
theorem savings_stage_failure_uses_fallbacks (loads : String → Option JVal)
    (nd : String → Option String) (now : PyDateTime) (fd : FinancialData)
    (store : SessionStore) (st2 : SessionState) (b j : JVal)
    (hpre : preparedState nd fd = Except.ok st2)
    (htr : truthy b = true)
    (hdec : ∀ d, parse_json_safely loads b d = j)
    (hval : conformsKey "budget_analysis" j = true) :
    (analyze_finances loads nd now fd
      (RunOutcome.success (runPipeline (StageOutcomes.mk (some b) none none))) store).1 =
      Except.ok [("budget_analysis", j),
        ("savings_strategy", defaultsJson (createDefaultResults fd) "savings_strategy"),
        ("debt_reduction", defaultsJson (createDefaultResults fd) "debt_reduction")] := by
  have hrp : runPipeline (StageOutcomes.mk (some b) none none) st2 =
      insertState st2 "budget_analysis" b := rfl
  have hb : List.lookup "budget_analysis"
      (runPipeline (StageOutcomes.mk (some b) none none) st2) = some b := by
    rw [hrp, lookup_insertState, if_pos rfl]
  have hs : List.lookup "savings_strategy"
      (runPipeline (StageOutcomes.mk (some b) none none) st2) = none := by
    rw [hrp, lookup_insertState, if_neg (by decide)]
    exact lookup_preparedState_output nd fd st2 _ hpre (by decide)
  have hd : List.lookup "debt_reduction"
      (runPipeline (StageOutcomes.mk (some b) none none) st2) = none := by
    rw [hrp, lookup_insertState, if_neg (by decide)]
    exact lookup_preparedState_output nd fd st2 _ hpre (by decide)
  show (analyzeBody loads nd fd _, _).1 = _
  unfold analyzeBody
  rw [hpre]
  dsimp only
  unfold analyzeMerge outputKeys
  rw [List.map_cons, List.map_cons, List.map_cons, List.map_nil]
  rw [hb, hs, hd]
  simp [htr, hdec]

/-- Claim C4 witness: with an empty input and a coordinator run in which
only the Budget stage produced its (validated, truthy) artifact, the
returned result is exactly the real budget artifact plus the two fallback
values. -/
theorem savings_stage_failure_uses_fallbacks_witness :
    (analyze_finances loads0 nd0 now0 emptyInput
      (RunOutcome.success (runPipeline (StageOutcomes.mk (some bA0) none none))) []).1 =
      Except.ok [("budget_analysis", bA0),
        ("savings_strategy", defaultsJson (createDefaultResults emptyInput) "savings_strategy"),
        ("debt_reduction", defaultsJson (createDefaultResults emptyInput) "debt_reduction")] :=
  savings_stage_failure_uses_fallbacks loads0 nd0 now0 emptyInput []
    (initialState emptyInput) bA0 bA0 rfl rfl (fun d => rfl) rfl

/-- Claim C8 counterexample: the preprocessor does not normalize the dates
held in session state: the strftime reformatting happens on a local
DataFrame copy only.  After preprocessing a transaction dated 2024/01/05
(which the date parser would normalize to 2024-01-05), the session state
still holds the unnormalized 2024/01/05 string while the two aggregate
keys are written. -/
theorem preprocess_dates_not_normalized_cex :
    preprocessTransactions ndSample [("transactions", JVal.arr [txSample])] =
      Except.ok [("transactions", JVal.arr [txSample]),
        ("category_spending", JVal.obj [("Food", JVal.num 50)]),
        ("total_spending", JVal.num 50)] ∧
    txSample = JVal.obj [("Date", JVal.str "2024/01/05"),
      ("Category", JVal.str "Food"), ("Amount", JVal.num 50)] ∧
    "2024/01/05" ≠ "2024-01-05" ∧ ndSample "2024/01/05" = some "2024-01-05" := by
  refine ⟨?_, rfl, by decide, rfl⟩
  with_unfolding_all rfl

/-- Claim C8 (amended): on a session state whose transactions are nonempty
well-formed records (Category and Amount present, every present Date
parseable), the preprocessor writes the per-category sums under
category_spending and the grand sum under total_spending; the transactions
in session state (their dates included) are left unchanged, date
normalization being applied only to a local copy; it is a no-op when
transactions are empty or falsy, and it never deletes existing keys. -/
theorem preprocess_transactions_aggregates :
    (∀ (nd : String → Option String) (st : SessionState),
      truthyOpt (List.lookup "transactions" st) = false →
      preprocessTransactions nd st = Except.ok st) ∧
    (∀ (nd : String → Option String) (st : SessionState) (ts : List JVal)
      (txs : List Transaction),
      List.lookup "transactions" st = some (JVal.arr ts) → ts ≠ [] →
      decodeTxs ts = some txs →
      (∀ t ∈ txs, t.category.isSome = true) →
      (∀ t ∈ txs, t.amount.isSome = true) →
      (∀ t ∈ txs, ∀ s, t.date = some s → (nd s).isSome = true) →
      ∃ st', preprocessTransactions nd st = Except.ok st' ∧
        List.lookup "category_spending" st' =
          some (JVal.obj ((categorySpending txs).map (fun p => (p.1, JVal.num p.2)))) ∧
        (∀ cat : String, List.lookup cat (categorySpending txs) =
          (if (txs.filter (fun t => t.category == some cat)).isEmpty then none
           else some ((txs.filter (fun t => t.category == some cat)).map
             (fun t => t.amount.getD 0)).sum)) ∧
        List.lookup "total_spending" st' =
          some (JVal.num ((txs.map (fun t => t.amount.getD 0)).sum)) ∧
        List.lookup "transactions" st' = List.lookup "transactions" st ∧
        (∀ k v, List.lookup k st = some v →
          ∃ v', List.lookup k st' = some v')) := by
  constructor
  · intro nd st h
    unfold preprocessTransactions
    dsimp only
    cases hlk : List.lookup "transactions" st with
    | none => rfl
    | some v =>
      rw [hlk] at h
      have hv : truthy v = false := h
      simp [hv]
  · intro nd st ts txs hlk hne hdec hcat hamt hdate
    have htne : txs ≠ [] := decodeTxs_ne_nil hdec hne
    refine ⟨insertState (insertState st "category_spending"
        (JVal.obj ((categorySpending txs).map (fun p => (p.1, JVal.num p.2)))))
        "total_spending" (JVal.num (totalSpending txs)), ?_, ?_, ?_, ?_, ?_, ?_⟩
    · unfold preprocessTransactions
      dsimp only
      rw [hlk]
      have htr : truthy ((some (JVal.arr ts)).getD (JVal.arr [])) = true := by
        show (!ts.isEmpty) = true
        cases he : ts.isEmpty
        · rfl
        · exact absurd (List.isEmpty_iff.mp he) hne
      rw [htr]
      have hdatefalse : (txs.any fun t => match t.date with
          | some s => (nd s).isNone | none => false) = false := by
        rw [List.any_eq_false]
        intro t ht
        cases hdt : t.date with
        | none => simp
        | some s =>
          have hnd := hdate t ht s hdt
          cases hnds : nd s with
          | none => rw [hnds] at hnd; cases hnd
          | some r => simp [hnds]
      have hcattrue : (txs.any fun t => t.category.isSome) = true := by
        obtain ⟨t0, ht0⟩ := List.exists_mem_of_ne_nil txs htne
        exact List.any_eq_true.mpr ⟨t0, ht0, hcat t0 ht0⟩
      have hamttrue : (txs.any fun t => t.amount.isSome) = true := by
        obtain ⟨t0, ht0⟩ := List.exists_mem_of_ne_nil txs htne
        exact List.any_eq_true.mpr ⟨t0, ht0, hamt t0 ht0⟩
      simp [hdec, hdatefalse, hcattrue, hamttrue]
    · rw [lookup_insertState, if_neg (by decide), lookup_insertState, if_pos rfl]
    · intro cat
      have hfil : txs.filter (fun t => t.category.isSome) = txs :=
        List.filter_eq_self.mpr hcat
      rw [categorySpending, hfil, lookup_foldl_addToCategory_nil]
      have hpred : txs.filter (fun t => t.category.getD "" == cat) =
          txs.filter (fun t => t.category == some cat) := by
        apply List.filter_congr
        intro t ht
        cases hc : t.category with
        | none =>
          have h0 := hcat t ht
          rw [hc] at h0
          cases h0
        | some c0 => rfl
      rw [hpred]
    · rw [lookup_insertState, if_pos rfl]
      rfl
    · rw [lookup_insertState, if_neg (by decide), lookup_insertState,
        if_neg (by decide)]
    · intro k v hv
      obtain ⟨v1, h1⟩ := insertState_keeps_keys st k "category_spending" _ v hv
      exact insertState_keeps_keys _ k "total_spending" _ v1 h1

/-- Claim C8 (amended) witness: preprocessing one Food transaction of 50
with a parseable date yields the per-category sum 50 for Food. -/
theorem preprocess_transactions_aggregates_witness :
    List.lookup "Food" (categorySpending
      [Transaction.mk (some "2024/01/05") (some "Food") (some 50)]) = some 50 := by
  obtain ⟨st', -, -, h3, -⟩ := preprocess_transactions_aggregates.2 ndSample
    [("transactions", JVal.arr [txSample])] [txSample]
    [Transaction.mk (some "2024/01/05") (some "Food") (some 50)]
    rfl (List.cons_ne_nil _ _) rfl
    (by intro t ht; rw [List.mem_singleton] at ht; subst ht; rfl)
    (by intro t ht; rw [List.mem_singleton] at ht; subst ht; rfl)
    (by
      intro t ht s hds
      rw [List.mem_singleton] at ht
      subst ht
      have hs : s = "2024/01/05" := (Option.some.injEq _ _ ▸ hds).symm
      rw [hs]
      rfl)
  rw [h3 "Food"]
  norm_num

/-- The fixed-width digit rendering always has its width. -/
theorem padDigits_length (w n : ℕ) : (padDigits w n).length = w := by
  induction w generalizing n with
  | zero => rfl
  | succ w ih => simp [padDigits, ih]

/-- Decimal digit characters are distinct. -/
theorem digitChar_injective : ∀ a b : Fin 10,
    Nat.digitChar a.val = Nat.digitChar b.val → a = b := by decide

/-- The fixed-width digit rendering is injective below its capacity. -/
theorem padDigits_inj (w : ℕ) : ∀ n m : ℕ, n < 10 ^ w → m < 10 ^ w →
    padDigits w n = padDigits w m → n = m := by
  induction w with
  | zero =>
    intro n m hn hm _
    rw [pow_zero] at hn hm
    omega
  | succ w ih =>
    intro n m hn hm h
    rw [padDigits, padDigits] at h
    obtain ⟨h1, h2⟩ := List.append_inj h
      (by rw [padDigits_length, padDigits_length])
    have hd : n % 10 = m % 10 := by
      simp only [List.cons.injEq, and_true] at h2
      have h10n : n % 10 < 10 := Nat.mod_lt _ (by norm_num)
      have h10m : m % 10 < 10 := Nat.mod_lt _ (by norm_num)
      have hfin := digitChar_injective ⟨n % 10, h10n⟩ ⟨m % 10, h10m⟩ h2
      exact congrArg Fin.val hfin
    have hq : n / 10 = m / 10 := by
      apply ih
      · rw [Nat.div_lt_iff_lt_mul (by norm_num : (0:ℕ) < 10)]
        rw [← pow_succ]
        exact hn
      · rw [Nat.div_lt_iff_lt_mul (by norm_num : (0:ℕ) < 10)]
        rw [← pow_succ]
        exact hm
      · exact h1
    omega

/-- Claim C9 (amended): the session id of analyze_finances is determined
by, and only by, the second-granularity invocation time: two invocations
read session ids that are equal exactly when their wall-clock times agree
down to the second.  In particular two invocations within the same second
(concurrent ones especially) share one session id, so ids are not unique
per invocation; invocations whose times differ in some second-level field
get distinct ids. -/
theorem session_id_second_granularity (t1 t2 : PyDateTime)
    (hy1 : t1.year < 10000) (hmo1 : t1.month < 100) (hd1 : t1.day < 100)
    (hh1 : t1.hour < 100) (hmi1 : t1.minute < 100) (hs1 : t1.second < 100)
    (hy2 : t2.year < 10000) (hmo2 : t2.month < 100) (hd2 : t2.day < 100)
    (hh2 : t2.hour < 100) (hmi2 : t2.minute < 100) (hs2 : t2.second < 100) :
    sessionId t1 = sessionId t2 ↔
      (t1.year = t2.year ∧ t1.month = t2.month ∧ t1.day = t2.day ∧
       t1.hour = t2.hour ∧ t1.minute = t2.minute ∧ t1.second = t2.second) := by
  constructor
  · intro h
    unfold sessionId at h
    injection h with h
    obtain ⟨h7, hS⟩ := List.append_inj' h
      (by rw [padDigits_length, padDigits_length])
    obtain ⟨h6, hMI⟩ := List.append_inj' h7
      (by rw [padDigits_length, padDigits_length])
    obtain ⟨h5, hH⟩ := List.append_inj' h6
      (by rw [padDigits_length, padDigits_length])
    obtain ⟨h4, -⟩ := List.append_inj' h5 rfl
    obtain ⟨h3, hD⟩ := List.append_inj' h4
      (by rw [padDigits_length, padDigits_length])
    obtain ⟨h2, hMO⟩ := List.append_inj' h3
      (by rw [padDigits_length, padDigits_length])
    obtain ⟨-, hY⟩ := List.append_inj' h2
      (by rw [padDigits_length, padDigits_length])
    refine ⟨?_, ?_, ?_, ?_, ?_, ?_⟩
    · exact padDigits_inj 4 _ _ (lt_of_lt_of_le hy1 (by norm_num))
        (lt_of_lt_of_le hy2 (by norm_num)) hY
    · exact padDigits_inj 2 _ _ (lt_of_lt_of_le hmo1 (by norm_num))
        (lt_of_lt_of_le hmo2 (by norm_num)) hMO
    · exact padDigits_inj 2 _ _ (lt_of_lt_of_le hd1 (by norm_num))
        (lt_of_lt_of_le hd2 (by norm_num)) hD
    · exact padDigits_inj 2 _ _ (lt_of_lt_of_le hh1 (by norm_num))
        (lt_of_lt_of_le hh2 (by norm_num)) hH
    · exact padDigits_inj 2 _ _ (lt_of_lt_of_le hmi1 (by norm_num))
        (lt_of_lt_of_le hmi2 (by norm_num)) hMI
    · exact padDigits_inj 2 _ _ (lt_of_lt_of_le hs1 (by norm_num))
        (lt_of_lt_of_le hs2 (by norm_num)) hS
  · intro he
    obtain ⟨e1, e2, e3, e4, e5, e6⟩ := he
    unfold sessionId
    rw [e1, e2, e3, e4, e5, e6]

/-- Claim C9 counterexample: two distinct invocation instants in the same
wall-clock second (differing only in microseconds, as two concurrent
analyze_finances calls would) receive the same session id, refuting
uniqueness of the session id per invocation. -/
theorem session_id_collision_cex :
    sessionId (PyDateTime.mk 2026 10 12 15 30 45 0) =
      sessionId (PyDateTime.mk 2026 10 12 15 30 45 500000) ∧
    PyDateTime.mk 2026 10 12 15 30 45 0 ≠
      PyDateTime.mk 2026 10 12 15 30 45 500000 :=
  ⟨rfl, by decide⟩

/-- Claim C9 (amended) witness: two concrete times one second apart get
distinct session ids. -/
theorem session_id_second_granularity_witness :
    sessionId (PyDateTime.mk 2026 10 12 15 30 45 0) ≠
      sessionId (PyDateTime.mk 2026 10 12 15 30 46 0) := by
  intro h
  have hfields := (session_id_second_granularity
    (PyDateTime.mk 2026 10 12 15 30 45 0) (PyDateTime.mk 2026 10 12 15 30 46 0)
    (by decide) (by decide) (by decide) (by decide) (by decide) (by decide)
    (by decide) (by decide) (by decide) (by decide) (by decide) (by decide)).mp h
  exact absurd hfields.2.2.2.2.2 (by decide)
